import Mathlib

/-!
Verification development for the zone-classification decision engine of
`src/app.js` (Iceland drone advisory tool).

The JavaScript source is shallowly embedded: pure helpers become Lean
functions over `ℚ` (JS numbers), `ℤ` (millisecond clocks) and `String`;
the async control flow of `runCheckWithCoords` becomes an explicit
function from the environment's observations at each suspension point
(the value of `lastRunToken` when each `await` resumes, and the settled
results of the awaited calls) to the list of UI emissions, tagged with
the program phase (0 = before the first await, 1 = between the two
awaits, 2 = after the second await).  The browser runtime is
single-threaded and event-loop driven, so a competing run can only start
while this run is suspended at an `await`; everything a run emits in
phase `n` therefore happens before any token movement observed at
suspension point `n+1`.

Pieces of the environment that are not part of the repository's code are
abstracted as explicit function parameters, universally quantified in
every theorem:
  * `distM`       — `haversineMeters` (transcendental float math);
  * `featureCount`— `parseFeatureCount` (browser `DOMParser`);
  * `extractName` — `tryExtractZoneNameFromXml` (browser `DOMParser`).
-/

/- ===== JS string primitives =====
`strContains` models `String.prototype.includes`, `jsLower` models
`toLowerCase` (ASCII case folding suffices for the markers involved),
`jsTrim` models `trim`. -/

def isPrefListOf : List Char → List Char → Bool
  | [], _ => true
  | _ :: _, [] => false
  | a :: as, b :: bs => a == b && isPrefListOf as bs

def subOccurs (needle : List Char) : List Char → Bool
  | [] => needle.isEmpty
  | c :: rest => isPrefListOf needle (c :: rest) || subOccurs needle rest

def strContains (hay needle : String) : Bool :=
  subOccurs needle.toList hay.toList

def jsLower (s : String) : String := ⟨s.toList.map Char.toLower⟩

def jsTrim (s : String) : String :=
  ⟨((s.toList.dropWhile Char.isWhitespace).reverse.dropWhile Char.isWhitespace).reverse⟩

/-- JS `Array.prototype.join(sep)`. -/
def arrJoin (sep : String) : List String → String
  | [] => ""
  | [x] => x
  | x :: y :: rest => x ++ sep ++ arrJoin sep (y :: rest)

/-- JS `Math.round`: round half toward +∞. -/
def jsRound (x : ℚ) : ℤ := ⌊x + 1/2⌋

/- ===== Configuration constants (src/app.js lines 31-62) ===== -/

def ICELAND_MIN_LAT : ℚ := 63.0
def ICELAND_MAX_LAT : ℚ := 67.6
def ICELAND_MIN_LON : ℚ := -25.5
def ICELAND_MAX_LON : ℚ := -12.0
def ENFORCE_ICELAND_ONLY : Bool := true
def NEAR_DISTANCE_M : ℕ := 500
def RADAR_POINTS : ℕ := 8
def CACHE_TTL_MS : ℤ := 30000
def CACHE_ROUND_DECIMALS : ℕ := 5
def GFI_CRS : String := "EPSG:3857"
def GFI_HALFBOX_M : ℚ := 150
def AIRPORT_POLICY_RADIUS_M : ℚ := 5000

structure Airport where
  code : String
  name : String
  lat : ℚ
  lon : ℚ
deriving DecidableEq

/-- The static airport list (src/app.js lines 66-73). -/
def AIRPORTS : List Airport :=
  [ ⟨"KEF", "Keflavík (KEF)", 63.9850, -22.6056⟩,
    ⟨"RKV", "Reykjavík (RKV)", 64.1300, -21.9400⟩,
    ⟨"AEY", "Akureyri (AEY)", 65.6600, -18.0727⟩,
    ⟨"EGS", "Egilsstaðir (EGS)", 65.2833, -14.4014⟩,
    ⟨"IFJ", "Ísafjörður (IFJ)", 66.0581, -23.1353⟩,
    ⟨"VEY", "Vestmannaeyjar (VEY)", 63.4243, -20.2792⟩ ]

structure NearestAirport where
  airport : Airport
  distanceM : ℚ
deriving DecidableEq

/-- Loop body of `nearestAirport` (src/app.js lines 451-456):
`if (!best || d < best.distanceM) best = { airport: ap, distanceM: d }`. -/
def nearStep (distM : ℚ → ℚ → ℚ → ℚ → ℚ) (lat lon : ℚ)
    (best : Option NearestAirport) (ap : Airport) : Option NearestAirport :=
  match best with
  | none => some ⟨ap, distM lat lon ap.lat ap.lon⟩
  | some b =>
    if distM lat lon ap.lat ap.lon < b.distanceM then
      some ⟨ap, distM lat lon ap.lat ap.lon⟩
    else some b

/-- `nearestAirport` (src/app.js lines 448-458); `distM` abstracts
`haversineMeters`. -/
def nearestAirport (distM : ℚ → ℚ → ℚ → ℚ → ℚ) (lat lon : ℚ) :
    Option NearestAirport :=
  AIRPORTS.foldl (nearStep distM lat lon) none

/- ===== WMS response interpretation (src/app.js lines 504-549) ===== -/

/-- `isWmsException` (src/app.js lines 504-507), case-SENSITIVE includes. -/
def isWmsException (text : String) : Bool :=
  strContains text "ServiceException" || strContains text "ExceptionReport" ||
    strContains text "ows:Exception"

/-- `aviationLevelFromXml` (src/app.js lines 530-541).  `featureCount`
abstracts `parseFeatureCount` (DOMParser-based; it returns 0 for
exception payloads, which this function already short-circuits). -/
def aviationLevelFromXml (featureCount : String → ℕ) (xmlText : String) : String :=
  if xmlText = "" then "none"
  else if isWmsException xmlText then "none"
  else if featureCount xmlText > 0 then "hit"
  else if strContains (jsLower xmlText) "featureinforesponse" then "context"
  else if strContains (jsLower xmlText) "<fields" then "context"
  else "none"

/-- `aviationLevelFromText` (src/app.js lines 543-549), case-insensitive
markers `serviceexception` and `exceptionreport` only. -/
def aviationLevelFromText (text : String) : String :=
  let t := jsTrim text
  if t = "" then "none"
  else if strContains (jsLower t) "serviceexception" ||
          strContains (jsLower t) "exceptionreport" then "none"
  else "context"

/- ===== Response cache (src/app.js lines 570-593) ===== -/

/-- `roundDec` (src/app.js lines 570-573): `Math.round(x * 10^d) / 10^d`. -/
def roundDec (x : ℚ) (d : ℕ) : ℚ := (⌊x * 10 ^ d + 1/2⌋ : ℚ) / 10 ^ d

/-- Cache key (src/app.js lines 575-579).  The source concatenates the
components into one string and the callers append a `"|avi"` / `"|prot"`
tag; the key is modelled as the tuple of those components. -/
structure CacheKey where
  baseUrl : String
  layerName : String
  rLat : ℚ
  rLon : ℚ
  crs : String
  halfBox : ℚ
  tag : String
deriving DecidableEq

def makeCacheKey (baseUrl layerName : String) (lat lon : ℚ) (tag : String) : CacheKey :=
  { baseUrl, layerName
    rLat := roundDec lat CACHE_ROUND_DECIMALS
    rLon := roundDec lon CACHE_ROUND_DECIMALS
    crs := GFI_CRS, halfBox := GFI_HALFBOX_M, tag }

structure CacheEntry (α : Type) where
  ts : ℤ
  value : α
deriving DecidableEq

/-- The `wmsCache` JS `Map`, as an association list with the `Map`'s
unique-key discipline maintained by `cacheSet`. -/
abbrev CacheMap (α : Type) := List (CacheKey × CacheEntry α)

deriving instance DecidableEq for Except

def cacheFind {α : Type} (cache : CacheMap α) (key : CacheKey) : Option (CacheEntry α) :=
  match cache with
  | [] => none
  | (k, e) :: rest => if k = key then some e else cacheFind rest key

def cacheDelete {α : Type} (cache : CacheMap α) (key : CacheKey) : CacheMap α :=
  match cache with
  | [] => []
  | (k, e) :: rest => if k = key then rest else (k, e) :: cacheDelete rest key

/-- `cacheGet` (src/app.js lines 581-589): a stale entry (age strictly
greater than `CACHE_TTL_MS`) is deleted and reported as a miss.  Returns
the looked-up value together with the updated map. -/
def cacheGet {α : Type} (cache : CacheMap α) (now : ℤ) (key : CacheKey) :
    Option α × CacheMap α :=
  match cacheFind cache key with
  | none => (none, cache)
  | some it =>
    if now - it.ts > CACHE_TTL_MS then (none, cacheDelete cache key)
    else (some it.value, cache)

/-- `cacheSet` (src/app.js lines 591-593): `Map.set` stores `{ts: Date.now(), value}`,
replacing any entry under the same key. -/
def cacheSet {α : Type} (cache : CacheMap α) (now : ℤ) (key : CacheKey) (value : α) :
    CacheMap α :=
  (key, ⟨now, value⟩) :: cacheDelete cache key

/- ===== Zone query client (src/app.js lines 600-661) ===== -/

/-- Result of `queryAviation`.  `raw` is the response body for the XML
and text formats; the JSON branch stores the parsed object, which the
engine never reads as text (every consumer guards on `format === "xml"`),
so it is modelled as `""` there. -/
structure AviResult where
  level : String
  raw : String
  format : String
  cached : Bool
deriving DecidableEq

structure ProtResult where
  hit : Bool
  raw : String
  format : String
  cached : Bool
deriving DecidableEq

/-- The environment's answers to the three content-negotiation attempts
of `queryAviation`.  The JSON attempt yields `some n` when `js.features`
is an array of length `n`, `none` when the shape is unexpected; a thrown
fetch, a non-OK status or a JSON parse error are all `.error ()` (the
reason is swallowed by the source's `catch (_) {}`).  Same for XML.  The
text attempt's failure is `.error msg` with the message that propagates. -/
structure AviAttempts where
  json : Except Unit (Option ℕ)
  xml : Except Unit String
  text : Except String String
deriving DecidableEq

structure QueryAviOut where
  result : Except String AviResult
  cache : CacheMap AviResult
  issued : List String
deriving DecidableEq

/-- `queryAviation` (src/app.js lines 600-634).  `issued` records which
HTTP attempts were actually fired, in order. -/
def queryAviation (featureCount : String → ℕ) (cache : CacheMap AviResult)
    (now : ℤ) (baseUrl layerName : String) (lat lon : ℚ)
    (att : AviAttempts) : QueryAviOut :=
  let cacheKey := makeCacheKey baseUrl layerName lat lon "avi"
  match cacheGet cache now cacheKey with
  | (some v, cache1) => ⟨.ok { v with cached := true }, cache1, []⟩
  | (none, cache1) =>
    match att.json with
    | .ok features =>
      let hit : Bool := match features with | some n => decide (n > 0) | none => false
      let out : AviResult :=
        { level := if hit then "hit" else "none", raw := "", format := "json", cached := false }
      ⟨.ok out, cacheSet cache1 now cacheKey out, ["json"]⟩
    | .error _ =>
      match att.xml with
      | .ok xml =>
        let out : AviResult :=
          { level := aviationLevelFromXml featureCount xml, raw := xml
            format := "xml", cached := false }
        ⟨.ok out, cacheSet cache1 now cacheKey out, ["json", "xml"]⟩
      | .error _ =>
        match att.text with
        | .ok txt =>
          let out : AviResult :=
            { level := aviationLevelFromText txt, raw := txt
              format := "text", cached := false }
          ⟨.ok out, cacheSet cache1 now cacheKey out, ["json", "xml", "text"]⟩
        | .error msg => ⟨.error msg, cache1, ["json", "xml", "text"]⟩

/- ===== Combined two-service check (src/app.js lines 686-721) ===== -/

structure CombinedCheck where
  aviationLevel : String
  protectedHit : Bool
  aviOk : Option AviResult
  protOk : Option ProtResult
  aviErr : Option String
  protErr : Option String
deriving DecidableEq

/-- `checkBothLayers` (src/app.js lines 686-706).  The source awaits
`Promise.allSettled` over the two queries, so this function consumes the
two settled outcomes and — crucially — is total: it never throws,
defaulting a failed side to `"none"` / `false` and keeping the rejection
message. -/
def checkBothLayers (avi : Except String AviResult)
    (prot : Except String ProtResult) : CombinedCheck :=
  let aviOk := match avi with | .ok v => some v | .error _ => none
  let protOk := match prot with | .ok v => some v | .error _ => none
  let aviErr := match avi with | .ok _ => none | .error e => some e
  let protErr := match prot with | .ok _ => none | .error e => some e
  { aviationLevel := match aviOk with | some a => a.level | none => "none"
    protectedHit := match protOk with | some p => p.hit | none => false
    aviOk, protOk, aviErr, protErr }

/-- `summarizeErrors` (src/app.js lines 708-713). -/
def summarizeErrors (aviErr protErr : Option String) : String :=
  let parts :=
    (match aviErr with | some e => ["Aviation: " ++ e] | none => []) ++
    (match protErr with | some e => ["Schutzgebiete: " ++ e] | none => [])
  arrJoin " | " parts

/-- `confidenceLabel` (src/app.js lines 715-721). -/
def confidenceLabel (aviErr protErr : Option String) : String :=
  if aviErr = none ∧ protErr = none then "hoch"
  else if aviErr ≠ none ∧ protErr ≠ none then "niedrig"
  else "mittel"

structure NearSummary where
  nearAviationHit : Bool
  nearProtected : Bool
  hadErrors : Bool
deriving DecidableEq

/-- Aggregation loop of `nearCheck` (src/app.js lines 723-744) over the
settled results of the 8 ring-point checks.  `checkBothLayers` is total
(it settles every sub-query with `Promise.allSettled`), so each ring
promise fulfills and the loop's `rejected` arm is unreachable; the
fulfilled arm is modelled exactly. -/
def nearCheck (results : List CombinedCheck) : NearSummary :=
  results.foldl
    (fun acc v =>
      { nearAviationHit := acc.nearAviationHit || (v.aviationLevel == "hit")
        nearProtected := acc.nearProtected || v.protectedHit
        hadErrors := acc.hadErrors || v.aviErr.isSome || v.protErr.isSome })
    ⟨false, false, false⟩

/- ===== Geofence guard (src/app.js lines 966-1000) ===== -/

structure GuardResult where
  lat : ℚ
  lon : ℚ
  inside : Bool
deriving DecidableEq

/-- `isInsideIceland` (src/app.js lines 966-975); Leaflet's
`bounds.contains` and the catch-arm fallback are the same inclusive
rectangle test. -/
def isInsideIceland (lat lon : ℚ) : Bool :=
  decide (ICELAND_MIN_LAT ≤ lat ∧ lat ≤ ICELAND_MAX_LAT ∧
          ICELAND_MIN_LON ≤ lon ∧ lon ≤ ICELAND_MAX_LON)

/-- `clampToIceland` (src/app.js lines 977-981). -/
def clampToIceland (lat lon : ℚ) : ℚ × ℚ :=
  (min ICELAND_MAX_LAT (max ICELAND_MIN_LAT lat),
   min ICELAND_MAX_LON (max ICELAND_MIN_LON lon))

/-- `guardToIceland` (src/app.js lines 983-1000).  The throttled
"outside" notice only writes a transient info banner and is not part of
the guard's value. -/
def guardToIceland (lat lon : ℚ) : GuardResult :=
  if !ENFORCE_ICELAND_ONLY then ⟨lat, lon, true⟩
  else if isInsideIceland lat lon then ⟨lat, lon, true⟩
  else
    let c := clampToIceland lat lon
    ⟨c.1, c.2, false⟩

/- ===== Classification engine (src/app.js lines 749-867) =====

`runCheckWithCoords` is embedded as `runCheck`.  An `Emission` is a
user-visible effect: a zone-line update, a `setState` banner (class,
traffic-light label, detail text), an awaited network phase marker
(`queryDirect` / `queryNear` — all HTTP of a run happens inside those
two awaited calls), or switching the aviation overlay on.  Each emission
is tagged with the phase in which the single-threaded run produces it:
phase 0 runs synchronously from entry to the first `await`, phase 1
between the two `await`s, phase 2 after the second.  `env.latest1` and
`env.latest2` are the values of the global `lastRunToken` observed when
the respective `await` resumes (`stopIfStale`).  The initial
`++lastRunToken` / abort of the previous run's controller are global
effects outside the returned emission list; an aborted in-flight request
surfaces only as a settled rejection inside `env.base` /
`env.nearResults`, never as a thrown error, because both awaited calls
gather their sub-queries with `Promise.allSettled`. -/

inductive Emission where
  | zone (text : String)
  | state (cls : String) (label : String) (detail : String)
  | queryDirect
  | queryNear
  | overlayAvi
deriving DecidableEq

structure RunEnv where
  latest1 : ℕ
  latest2 : ℕ
  base : CombinedCheck
  nearResults : List CombinedCheck
deriving DecidableEq

/-- `ap && ap.distanceM <= AIRPORT_POLICY_RADIUS_M` (src/app.js 770, 857). -/
def apWithinPolicy (ap : Option NearestAirport) : Bool :=
  match ap with
  | some b => decide (b.distanceM ≤ AIRPORT_POLICY_RADIUS_M)
  | none => false

/-- `!expertMode && ap && ap.distanceM <= AIRPORT_POLICY_RADIUS_M` (src/app.js 770). -/
def airportGate (expertMode : Bool) (ap : Option NearestAirport) : Bool :=
  !expertMode && apWithinPolicy ap

/-- `if (errSum) detailEl.textContent += ` | Hinweis: errSum`` — the
conditional append made by the terminal branches (src/app.js 803, 818, 830). -/
def withHint (s errSum : String) : String :=
  if errSum = "" then s else s ++ " | Hinweis: " ++ errSum

/-- Detail text of the airport-policy RED advisory (src/app.js 774-778). -/
def airportRedDetail (name : String) (d : ℤ) : String :=
  name ++ (": " ++ ((toString d ++ " m") ++
    ". Konservativer 5km-Sicherheitsring (Policy). Bitte nicht fliegen ohne explizite Freigabe/Regelprüfung."))

/-- Airport-policy terminal branch (src/app.js 770-785): zone line,
RED banner, aviation overlay on — then `return`, all before any await. -/
def airportEmissions (b : NearestAirport) : List (ℕ × Emission) :=
  [ (0, Emission.zone ("Zone: Flughafen-Nähe (" ++ b.airport.code ++ ")")),
    (0, Emission.state "no" "ROT" (airportRedDetail b.airport.name (jsRound b.distanceM))),
    (0, Emission.overlayAvi) ]

/-- `base.aviOk?.format === "xml" ? tryExtractZoneNameFromXml(base.aviOk.raw) : null`
(src/app.js 798-799); `extractName` abstracts the DOM-based extractor. -/
def aviXmlName (extractName : String → Option String) (r : Option AviResult) :
    Option String :=
  match r with
  | some a => if a.format = "xml" then extractName a.raw else none
  | none => none

/-- Same for the protected-area result (src/app.js 813-814). -/
def protXmlName (extractName : String → Option String) (r : Option ProtResult) :
    Option String :=
  match r with
  | some p => if p.format = "xml" then extractName p.raw else none
  | none => none

/-- GREEN terminal (src/app.js 862). -/
def greenEmission (conf : String) : List Emission :=
  [ Emission.state "ok" "GRÜN"
      ("Keine Zone laut Servern. Vertrauen: " ++ conf ++ ". (Aviation + Schutzgebiete)") ]

/-- The `reasons` array of src/app.js 839-842. -/
def perimeterReasons (errSum : String) (near : NearSummary) : List String :=
  (if near.nearAviationHit then
      ["Grenzbereich Aviation (<" ++ toString NEAR_DISTANCE_M ++ " m)"] else []) ++
  (if near.nearProtected then
      ["nahe Schutzgebiet (<" ++ toString NEAR_DISTANCE_M ++ " m)"] else []) ++
  (if errSum = "" then [] else ["Quellen nicht vollständig erreichbar"])

/-- The decision made after `nearCheck` resolves (src/app.js 839-862):
boundary-proximity YELLOW (with the `hadErrors` incompleteness note),
the both-sources-down YELLOW, the expert-mode INFO, or GREEN. -/
def perimeterPhase (expertMode : Bool) (ap : Option NearestAirport)
    (conf errSum : String) (near : NearSummary) : List Emission :=
  if perimeterReasons errSum near ≠ [] then
    [ Emission.state "warn" "GELB"
        ("Vorsicht: " ++ arrJoin " | " (perimeterReasons errSum near) ++
          ". Vertrauen: " ++ conf ++ "." ++
          (if near.hadErrors then " | Hinweis: Grenz-Check evtl. unvollständig." else "")) ]
  else if conf = "niedrig" then
    [ Emission.state "warn" "GELB"
        "Keine Treffer – aber Quellen waren nicht erreichbar. Bitte später erneut prüfen. Vertrauen: niedrig." ]
  else
    match ap with
    | some b =>
      if expertMode && decide (b.distanceM ≤ AIRPORT_POLICY_RADIUS_M) then
        [ Emission.state "info" "INFO"
            ("Expertenmodus: im 5km-Ring von " ++ b.airport.name ++ " (" ++
              toString (jsRound b.distanceM) ++ " m) – Ampel bleibt datengestützt.") ]
      else greenEmission conf
    | none => greenEmission conf

/-- Everything after the first await resumes while still the latest run
(src/app.js 793-862): direct-hit classification, else the perimeter
check (whose resumption re-checks staleness). -/
def afterDirect (extractName : String → Option String) (expertMode : Bool)
    (ap : Option NearestAirport) (myToken : ℕ) (env : RunEnv) : List (ℕ × Emission) :=
  let base := env.base
  let errSum := summarizeErrors base.aviErr base.protErr
  let conf := confidenceLabel base.aviErr base.protErr
  if base.aviationLevel = "hit" then
    [ (1, Emission.zone ("Zone: " ++ (aviXmlName extractName base.aviOk).getD "Aviation-Zone")),
      (1, Emission.state "no" "ROT"
          (withHint ("Treffer: Aviation/Luftraum (regelrelevant). Vertrauen: " ++ conf ++ ".") errSum)),
      (1, Emission.overlayAvi) ]
  else if base.protectedHit then
    [ (1, Emission.zone ("Zone: " ++ (protXmlName extractName base.protOk).getD "Schutzgebiet")),
      (1, Emission.state "warn" "GELB"
          (withHint ("Schutzgebiet: sensibler Bereich. Vertrauen: " ++ conf ++
            ". Regeln können variieren – bitte amtlich prüfen.") errSum)) ]
  else if base.aviationLevel = "context" then
    [ (1, Emission.zone "Zone: Aviation-Kontext"),
      (1, Emission.state "info" "INFO"
          (withHint ("Aviation-Umfeld (Hinweis). Kein explizites Verbot als Feature. Vertrauen: " ++ conf ++
            ". Bitte besonders aufmerksam (lokale Regeln, Start-/Landeachsen, NOTAM, Menschen).") errSum)) ]
  else
    [ (1, Emission.state "warn" "…"
          ("Kein Treffer am Punkt. Prüfe Grenznähe (" ++ toString NEAR_DISTANCE_M ++ " m)…")),
      (1, Emission.queryNear) ] ++
    (if env.latest2 = myToken then
        (perimeterPhase expertMode ap conf errSum (nearCheck env.nearResults)).map (fun e => (2, e))
      else [])

/-- The flow of `runCheckWithCoords` once the airport-policy gate did not
fire (src/app.js 787-867): the "Frage Server…" transient, the awaited
direct check, then — if still the latest run — the classification. -/
def runMain (extractName : String → Option String) (expertMode : Bool)
    (ap : Option NearestAirport) (myToken : ℕ) (env : RunEnv) : List (ℕ × Emission) :=
  (0, Emission.state "warn" "…" "Frage Server (Aviation + Schutzgebiete)…") ::
  (0, Emission.queryDirect) ::
  (if env.latest1 = myToken then afterDirect extractName expertMode ap myToken env else [])

/-- `runCheckWithCoords` (src/app.js 749-867). -/
def runCheck (distM : ℚ → ℚ → ℚ → ℚ → ℚ) (extractName : String → Option String)
    (expertMode : Bool) (myToken : ℕ) (lat lon : ℚ) (env : RunEnv) :
    List (ℕ × Emission) :=
  (0, Emission.zone "Zone: —") ::
  (match nearestAirport distM lat lon with
   | some b =>
     if airportGate expertMode (some b) then airportEmissions b
     else runMain extractName expertMode (some b) myToken env
   | none => runMain extractName expertMode none myToken env)

/-- Emissions of phases `≥ n`. -/
def emittedFrom (out : List (ℕ × Emission)) (n : ℕ) : List Emission :=
  (out.filter (fun p => decide (n ≤ p.fst))).map Prod.snd

/-- Emissions of exactly phase `n`. -/
def phaseList (out : List (ℕ × Emission)) (n : ℕ) : List Emission :=
  (out.filter (fun p => decide (p.fst = n))).map Prod.snd

/- ===================== Helper lemmas ===================== -/

theorem toList_append (a b : String) : (a ++ b).toList = a.toList ++ b.toList := by
  cases a
  cases b
  rfl

theorem isPrefListOf_append : ∀ (l t : List Char), isPrefListOf l (l ++ t) = true
  | [], _ => rfl
  | a :: as, t => by simp [isPrefListOf, isPrefListOf_append as t]

theorem subOccurs_of_pref {n h : List Char} (hp : isPrefListOf n h = true) :
    subOccurs n h = true := by
  cases h with
  | nil =>
    cases n with
    | nil => rfl
    | cons c cs => simp [isPrefListOf] at hp
  | cons c rest => simp [subOccurs, hp]

theorem subOccurs_append_left (a : List Char) {n t : List Char}
    (h : subOccurs n t = true) : subOccurs n (a ++ t) = true := by
  induction a with
  | nil => simpa using h
  | cons c cs ih => simp [subOccurs, ih]

theorem strContains_self_append (a b : String) : strContains (a ++ b) a = true := by
  rw [strContains, toList_append]
  exact subOccurs_of_pref (isPrefListOf_append _ _)

theorem strContains_append_right (a : String) {b s : String}
    (h : strContains b s = true) : strContains (a ++ b) s = true := by
  rw [strContains, toList_append]
  exact subOccurs_append_left _ h

theorem append_ne_empty_left (a b : String) (ha : a ≠ "") : a ++ b ≠ "" := by
  cases a with
  | mk da =>
    cases b with
    | mk db =>
      intro h
      apply ha
      have hdd : da ++ db = [] := congrArg String.data h
      have hda : da = [] := (List.append_eq_nil.mp hdd).1
      subst hda
      rfl

theorem summarizeErrors_eq_empty (a p : Option String) :
    summarizeErrors a p = "" ↔ a = none ∧ p = none := by
  cases a with
  | none =>
    cases p with
    | none => simp [summarizeErrors, arrJoin]
    | some e =>
      simp only [summarizeErrors, List.nil_append, arrJoin]
      exact ⟨fun h => absurd h (append_ne_empty_left _ _ (by decide)), by simp⟩
  | some e =>
    cases p with
    | none =>
      simp only [summarizeErrors, List.append_nil, arrJoin]
      exact ⟨fun h => absurd h (append_ne_empty_left _ _ (by decide)), by simp⟩
    | some f =>
      simp only [summarizeErrors, List.cons_append, List.nil_append, arrJoin]
      refine ⟨fun h => ?_, by simp⟩
      exact absurd h (append_ne_empty_left _ _
        (append_ne_empty_left _ _ (append_ne_empty_left _ _ (by decide))))

theorem nearFold_le (distM : ℚ → ℚ → ℚ → ℚ → ℚ) (lat lon : ℚ) :
    ∀ (l : List Airport) (b0 : NearestAirport),
      ∃ b, l.foldl (nearStep distM lat lon) (some b0) = some b ∧
        b.distanceM ≤ b0.distanceM := by
  intro l
  induction l with
  | nil => exact fun b0 => ⟨b0, rfl, le_refl _⟩
  | cons ap rest ih =>
    intro b0
    rw [List.foldl_cons]
    by_cases hd : distM lat lon ap.lat ap.lon < b0.distanceM
    · obtain ⟨b, hb, hle⟩ := ih ⟨ap, distM lat lon ap.lat ap.lon⟩
      refine ⟨b, ?_, hle.trans (le_of_lt hd)⟩
      simpa [nearStep, if_pos hd] using hb
    · obtain ⟨b, hb, hle⟩ := ih b0
      refine ⟨b, ?_, hle⟩
      simpa [nearStep, if_neg hd] using hb

theorem nearestAirport_min (distM : ℚ → ℚ → ℚ → ℚ → ℚ) (lat lon : ℚ)
    {ap : Airport} (h : ap ∈ AIRPORTS) :
    ∃ b, nearestAirport distM lat lon = some b ∧
      b.distanceM ≤ distM lat lon ap.lat ap.lon := by
  obtain ⟨s, t, hst⟩ := List.append_of_mem h
  rw [nearestAirport, hst, List.foldl_append, List.foldl_cons]
  cases hacc : s.foldl (nearStep distM lat lon) none with
  | none =>
    obtain ⟨b, hb, hle⟩ := nearFold_le distM lat lon t ⟨ap, distM lat lon ap.lat ap.lon⟩
    exact ⟨b, by simpa [nearStep] using hb, hle⟩
  | some b0 =>
    by_cases hd : distM lat lon ap.lat ap.lon < b0.distanceM
    · obtain ⟨b, hb, hle⟩ := nearFold_le distM lat lon t ⟨ap, distM lat lon ap.lat ap.lon⟩
      exact ⟨b, by simpa [nearStep, if_pos hd] using hb, hle⟩
    · obtain ⟨b, hb, hle⟩ := nearFold_le distM lat lon t b0
      exact ⟨b, by simpa [nearStep, if_neg hd] using hb,
        hle.trans (not_lt.mp hd)⟩

theorem cacheFind_cons_self {α : Type} (k : CacheKey) (e : CacheEntry α)
    (rest : CacheMap α) : cacheFind ((k, e) :: rest) k = some e := by
  simp [cacheFind]

/- ===================== Claim theorems ===================== -/

/-- C9: the geofence clamp maps (70.0, -18.6) to (67.6, -18.6) with the
inside flag false; a coordinate already inside the operating rectangle
passes through unchanged with the flag true; and the clamp is idempotent
for every input coordinate. -/
theorem guardToIceland_clamp_spec :
    guardToIceland 70 (-18.6) = ⟨67.6, -18.6, false⟩ ∧
    (∀ lat lon : ℚ, isInsideIceland lat lon = true →
      guardToIceland lat lon = ⟨lat, lon, true⟩) ∧
    (∀ lat lon : ℚ,
      clampToIceland (clampToIceland lat lon).1 (clampToIceland lat lon).2 =
        clampToIceland lat lon) := by
  refine ⟨?_, ?_, ?_⟩
  · norm_num [guardToIceland, isInsideIceland, clampToIceland, ENFORCE_ICELAND_ONLY,
      ICELAND_MIN_LAT, ICELAND_MAX_LAT, ICELAND_MIN_LON, ICELAND_MAX_LON]
  · intro lat lon h
    simp [guardToIceland, ENFORCE_ICELAND_ONLY, h]
  · intro lat lon
    have key : ∀ (mn mx x : ℚ), mn ≤ mx →
        min mx (max mn (min mx (max mn x))) = min mx (max mn x) := by
      intro mn mx x hmm
      have h1 : mn ≤ min mx (max mn x) := le_min hmm (le_max_left _ _)
      have h2 : min mx (max mn x) ≤ mx := min_le_left _ _
      rw [max_eq_right h1, min_eq_right h2]
    have hlat : ICELAND_MIN_LAT ≤ ICELAND_MAX_LAT := by
      norm_num [ICELAND_MIN_LAT, ICELAND_MAX_LAT]
    have hlon : ICELAND_MIN_LON ≤ ICELAND_MAX_LON := by
      norm_num [ICELAND_MIN_LON, ICELAND_MAX_LON]
    simp only [clampToIceland]
    rw [key _ _ _ hlat, key _ _ _ hlon]

theorem isInsideIceland_probe : isInsideIceland 64 (-20) = true := by
  norm_num [isInsideIceland, ICELAND_MIN_LAT, ICELAND_MAX_LAT,
    ICELAND_MIN_LON, ICELAND_MAX_LON]

theorem guardToIceland_clamp_spec_witness :
    isInsideIceland 64 (-20) = true ∧ guardToIceland 64 (-20) = ⟨64, -20, true⟩ :=
  ⟨isInsideIceland_probe, guardToIceland_clamp_spec.2.1 64 (-20) isInsideIceland_probe⟩

/-- C10: for every outcome of the two settled service queries the
combined check is a total function into a well-formed `CombinedCheck` —
a failed aviation side defaults the level to "none" and records the
message in `aviErr`, a failed protected side defaults the hit to `false`
and records `protErr`; successful sides pass their payload through with
a `none` error. -/
theorem checkBothLayers_total_defaults (avi : Except String AviResult)
    (prot : Except String ProtResult) :
    (∀ e, avi = .error e →
      (checkBothLayers avi prot).aviationLevel = "none" ∧
      (checkBothLayers avi prot).aviErr = some e ∧
      (checkBothLayers avi prot).aviOk = none) ∧
    (∀ a, avi = .ok a →
      (checkBothLayers avi prot).aviationLevel = a.level ∧
      (checkBothLayers avi prot).aviErr = none) ∧
    (∀ e, prot = .error e →
      (checkBothLayers avi prot).protectedHit = false ∧
      (checkBothLayers avi prot).protErr = some e ∧
      (checkBothLayers avi prot).protOk = none) ∧
    (∀ p, prot = .ok p →
      (checkBothLayers avi prot).protectedHit = p.hit ∧
      (checkBothLayers avi prot).protErr = none) := by
  cases avi <;> cases prot <;>
    simp +contextual [checkBothLayers]

theorem checkBothLayers_total_defaults_witness :
    (checkBothLayers (.error "NetworkError") (.ok ⟨true, "", "json", false⟩)).aviationLevel
        = "none" ∧
    (checkBothLayers (.error "NetworkError") (.ok ⟨true, "", "json", false⟩)).protectedHit
        = true :=
  ⟨((checkBothLayers_total_defaults (.error "NetworkError")
      (.ok ⟨true, "", "json", false⟩)).1 "NetworkError" rfl).1,
   ((checkBothLayers_total_defaults (.error "NetworkError")
      (.ok ⟨true, "", "json", false⟩)).2.2.2 ⟨true, "", "json", false⟩ rfl).1⟩

/-- C6 (counterexample): a plain-text body carrying only the marker
`ows:Exception` is classified "context", not "none" — the claim's
statement that all three OGC exception markers yield `none` fails for
the text fallback, which checks only `serviceexception` /
`exceptionreport`. -/
theorem aviationLevelFromText_ows_cex :
    aviationLevelFromText "<ows:Exception>missing parameter</ows:Exception>" = "context" ∧
    "context" ≠ "none" := by decide

/-- C6 (amended): empty or whitespace-only text yields "none"; text whose
lower-cased trim contains `serviceexception` or `exceptionreport` yields
"none"; any other non-empty text yields "context"; the text fallback
never yields "hit".  (A bare `ows:Exception` marker is NOT treated as an
exception by this function.) -/
theorem aviationLevelFromText_spec (text : String) :
    (jsTrim text = "" → aviationLevelFromText text = "none") ∧
    ((strContains (jsLower (jsTrim text)) "serviceexception" ||
      strContains (jsLower (jsTrim text)) "exceptionreport") = true →
        aviationLevelFromText text = "none") ∧
    (jsTrim text ≠ "" →
      (strContains (jsLower (jsTrim text)) "serviceexception" ||
       strContains (jsLower (jsTrim text)) "exceptionreport") = false →
        aviationLevelFromText text = "context") ∧
    aviationLevelFromText text ≠ "hit" := by
  refine ⟨fun h0 => by simp [aviationLevelFromText, h0], ?_, ?_, ?_⟩
  · intro h1
    by_cases h0 : jsTrim text = ""
    · simp [aviationLevelFromText, h0]
    · simp [aviationLevelFromText, h0, h1]
  · intro h0 h1
    simp [aviationLevelFromText, h0, h1]
  · by_cases h0 : jsTrim text = ""
    · simp [aviationLevelFromText, h0]
    · by_cases h1 : (strContains (jsLower (jsTrim text)) "serviceexception" ||
          strContains (jsLower (jsTrim text)) "exceptionreport") = true
      · simp [aviationLevelFromText, h0, h1]
      · rw [Bool.not_eq_true] at h1
        simp [aviationLevelFromText, h0, h1]

theorem aviationLevelFromText_spec_witness :
    (jsTrim "No NOTAM data" ≠ "" ∧
     (strContains (jsLower (jsTrim "No NOTAM data")) "serviceexception" ||
      strContains (jsLower (jsTrim "No NOTAM data")) "exceptionreport") = false) ∧
    aviationLevelFromText "No NOTAM data" = "context" :=
  ⟨⟨by decide, by decide⟩,
   (aviationLevelFromText_spec "No NOTAM data").2.2.1 (by decide) (by decide)⟩

/-- C4 (counterexample): JSON attempt throws, XML attempt succeeds with
a `ServiceException` body, and the text attempt would return the
non-empty text "No NOTAM data".  The claim predicts level "context" via
the text fallback; the code returns level "none" at the XML stage and
never issues the text request (issued = [json, xml]). -/
theorem queryAviation_xml_exception_cex :
    (queryAviation (fun _ => 0) [] 0 "B" "L" 0 0
        ⟨.error (), .ok "<ServiceException>boom</ServiceException>", .ok "No NOTAM data"⟩).result =
      .ok ⟨"none", "<ServiceException>boom</ServiceException>", "xml", false⟩ ∧
    (queryAviation (fun _ => 0) [] 0 "B" "L" 0 0
        ⟨.error (), .ok "<ServiceException>boom</ServiceException>", .ok "No NOTAM data"⟩).issued =
      ["json", "xml"] ∧
    aviationLevelFromText "No NOTAM data" = "context" ∧
    "none" ≠ "context" := by decide

/-- C4 (amended): when the JSON attempt fails and the XML attempt
succeeds with an OGC exception body, the aviation query resolves at the
XML stage to level "none" (exception treated as no data); the plain-text
request is never issued, and the query succeeds, so no per-service error
is recorded downstream (`aviErr = none`, leaving confidence untouched). -/
theorem queryAviation_xml_exception_terminal
    (featureCount : String → ℕ) (cache : CacheMap AviResult) (now : ℤ)
    (baseUrl layerName : String) (lat lon : ℚ) (att : AviAttempts) (xml : String)
    (hmiss : cacheFind cache (makeCacheKey baseUrl layerName lat lon "avi") = none)
    (hjson : att.json = .error ())
    (hxml : att.xml = .ok xml)
    (hexc : isWmsException xml = true) :
    (queryAviation featureCount cache now baseUrl layerName lat lon att).result =
      .ok ⟨"none", xml, "xml", false⟩ ∧
    (queryAviation featureCount cache now baseUrl layerName lat lon att).issued =
      ["json", "xml"] ∧
    (∀ prot, (checkBothLayers
        (queryAviation featureCount cache now baseUrl layerName lat lon att).result
        prot).aviErr = none) := by
  have hlevel : aviationLevelFromXml featureCount xml = "none" := by
    by_cases h0 : xml = ""
    · simp [aviationLevelFromXml, h0]
    · simp [aviationLevelFromXml, h0, hexc]
  have hq : queryAviation featureCount cache now baseUrl layerName lat lon att =
      ⟨.ok ⟨"none", xml, "xml", false⟩,
        cacheSet cache now (makeCacheKey baseUrl layerName lat lon "avi")
          ⟨"none", xml, "xml", false⟩, ["json", "xml"]⟩ := by
    unfold queryAviation
    simp [cacheGet, hmiss, hjson, hxml, hlevel]
  refine ⟨by rw [hq], by rw [hq], fun prot => by rw [hq]; simp [checkBothLayers]⟩

theorem queryAviation_xml_exception_terminal_witness :
    (cacheFind ([] : CacheMap AviResult) (makeCacheKey "B" "L" 0 0 "avi") = none ∧
     isWmsException "<ServiceException>boom</ServiceException>" = true) ∧
    (queryAviation (fun _ => 0) [] 0 "B" "L" 0 0
        ⟨.error (), .ok "<ServiceException>boom</ServiceException>", .error "down"⟩).result =
      .ok ⟨"none", "<ServiceException>boom</ServiceException>", "xml", false⟩ :=
  ⟨⟨rfl, by decide⟩,
   (queryAviation_xml_exception_terminal (fun _ => 0) [] 0 "B" "L" 0 0
      ⟨.error (), .ok "<ServiceException>boom</ServiceException>", .error "down"⟩
      "<ServiceException>boom</ServiceException>" rfl rfl rfl (by decide)).1⟩

/-- C8: an entry whose age strictly exceeds the 30 s TTL is deleted at
`get` time and reported absent, after which the aviation query layer
issues a fresh HTTP attempt chain (starting with JSON); a fresh entry is
returned as-is, and the query layer returns it tagged `cached := true`
with an empty issued-request list (no new HTTP request).  Eviction
happens only through this lazy check inside `cacheGet`. -/
theorem cacheGet_ttl_spec
    (featureCount : String → ℕ) (cache : CacheMap AviResult) (now ts : ℤ)
    (v : AviResult) (baseUrl layerName : String) (lat lon : ℚ) (att : AviAttempts)
    (hfind : cacheFind cache (makeCacheKey baseUrl layerName lat lon "avi") =
      some ⟨ts, v⟩) :
    (now - ts > CACHE_TTL_MS →
      cacheGet cache now (makeCacheKey baseUrl layerName lat lon "avi") =
        (none, cacheDelete cache (makeCacheKey baseUrl layerName lat lon "avi")) ∧
      ∃ rest, (queryAviation featureCount cache now baseUrl layerName lat lon att).issued =
        "json" :: rest) ∧
    (¬(now - ts > CACHE_TTL_MS) →
      cacheGet cache now (makeCacheKey baseUrl layerName lat lon "avi") = (some v, cache) ∧
      queryAviation featureCount cache now baseUrl layerName lat lon att =
        ⟨.ok { v with cached := true }, cache, []⟩) := by
  constructor
  · intro hexp
    refine ⟨by simp [cacheGet, hfind, hexp], ?_⟩
    rcases att with ⟨j, x, t⟩
    cases j with
    | ok f => exact ⟨[], by simp [queryAviation, cacheGet, hfind, hexp]⟩
    | error u =>
      cases x with
      | ok xs => exact ⟨["xml"], by simp [queryAviation, cacheGet, hfind, hexp]⟩
      | error u2 =>
        cases t with
        | ok txt => exact ⟨["xml", "text"], by simp [queryAviation, cacheGet, hfind, hexp]⟩
        | error m => exact ⟨["xml", "text"], by simp [queryAviation, cacheGet, hfind, hexp]⟩
  · intro hfresh
    refine ⟨by simp [cacheGet, hfind, hfresh], ?_⟩
    unfold queryAviation
    simp [cacheGet, hfind, hfresh]

theorem cacheGet_ttl_spec_witness :
    (cacheFind [(makeCacheKey "B" "L" 0 0 "avi",
        ⟨0, (⟨"none", "", "json", false⟩ : AviResult)⟩)]
      (makeCacheKey "B" "L" 0 0 "avi") =
        some ⟨0, (⟨"none", "", "json", false⟩ : AviResult)⟩ ∧
     ((40000 : ℤ) - 0 > CACHE_TTL_MS)) ∧
    cacheGet [(makeCacheKey "B" "L" 0 0 "avi",
        ⟨0, (⟨"none", "", "json", false⟩ : AviResult)⟩)] 40000
      (makeCacheKey "B" "L" 0 0 "avi") =
      (none, cacheDelete [(makeCacheKey "B" "L" 0 0 "avi",
        ⟨0, (⟨"none", "", "json", false⟩ : AviResult)⟩)]
        (makeCacheKey "B" "L" 0 0 "avi")) :=
  ⟨⟨cacheFind_cons_self _ _ _, by decide⟩,
   ((cacheGet_ttl_spec (fun _ => 0) _ 40000 0 _ "B" "L" 0 0
      ⟨.error (), .error (), .error "down"⟩ (cacheFind_cons_self _ _ _)).1
      (by decide)).1⟩

theorem isPrefListOf_mono : ∀ {n a : List Char} (t : List Char),
    isPrefListOf n a = true → isPrefListOf n (a ++ t) = true
  | [], _, _, _ => rfl
  | c :: cs, [], t, h => by simp [isPrefListOf] at h
  | c :: cs, b :: bs, t, h => by
    simp only [isPrefListOf, Bool.and_eq_true] at h
    simp only [List.cons_append, isPrefListOf, Bool.and_eq_true]
    exact ⟨h.1, isPrefListOf_mono t h.2⟩

theorem subOccurs_nil_needle : ∀ (h : List Char), subOccurs [] h = true
  | [] => rfl
  | c :: rest => by simp [subOccurs, isPrefListOf]

theorem subOccurs_append_right : ∀ (a t : List Char) {n : List Char},
    subOccurs n a = true → subOccurs n (a ++ t) = true
  | [], t, n, h => by
    have hn : n = [] := by
      cases n with
      | nil => rfl
      | cons c cs => simp [subOccurs, List.isEmpty] at h
    subst hn
    exact subOccurs_nil_needle _
  | c :: rest, t, n, h => by
    simp only [subOccurs, Bool.or_eq_true] at h
    simp only [List.cons_append, subOccurs, Bool.or_eq_true]
    rcases h with h | h
    · exact Or.inl (isPrefListOf_mono _ h)
    · exact Or.inr (subOccurs_append_right rest t h)

theorem strContains_append_left (b : String) {a s : String}
    (h : strContains a s = true) : strContains (a ++ b) s = true := by
  rw [strContains, toList_append]
  exact subOccurs_append_right _ _ h

theorem phaseTag_proj (L : List Emission) (n : ℕ) :
    ((L.map (fun e => (n, e))).filter (fun p => decide (p.fst = n))).map Prod.snd = L := by
  induction L with
  | nil => rfl
  | cons e t ih => simp [ih]

theorem runCheck_not_gated (distM : ℚ → ℚ → ℚ → ℚ → ℚ)
    (extractName : String → Option String) (expertMode : Bool) (myToken : ℕ)
    (lat lon : ℚ) (env : RunEnv)
    (hgate : airportGate expertMode (nearestAirport distM lat lon) = false) :
    runCheck distM extractName expertMode myToken lat lon env =
      (0, Emission.zone "Zone: —") ::
      runMain extractName expertMode (nearestAirport distM lat lon) myToken env := by
  unfold runCheck
  cases hap : nearestAirport distM lat lon with
  | none => rfl
  | some b =>
    rw [hap] at hgate
    simp [hgate]

theorem afterDirect_filter2 (extractName : String → Option String) (expertMode : Bool)
    (ap : Option NearestAirport) (myToken : ℕ) (env : RunEnv)
    (hst2 : env.latest2 ≠ myToken) :
    (afterDirect extractName expertMode ap myToken env).filter
      (fun p => decide (2 ≤ p.fst)) = [] := by
  simp only [afterDirect]
  split
  · simp
  · split
    · simp
    · split
      · simp
      · simp [hst2]

/-- C1: if classification run A (token `myToken`) observes at any await
resumption that it is no longer the latest run, it emits nothing from
that point on — no Advisory, no zone update, no overlay change, and no
error banner.  Conjunct one: if a newer run had started before the
direct check resolved, everything past the first suspension point is
empty; conjunct two: if a newer run started before the perimeter scan
resolved, everything past the second suspension point is empty.  This
holds for every possible environment, including one whose settled
results carry abort-rejection messages: a cancelled sub-request only
shows up as an error string inside `env.base`/`env.nearResults`
(`Promise.allSettled` in `checkBothLayers`/`nearCheck` never rejects),
so a stale run's abort is swallowed silently rather than surfacing as a
user-visible failure. -/
theorem runCheck_supersession_silent (distM : ℚ → ℚ → ℚ → ℚ → ℚ)
    (extractName : String → Option String) (expertMode : Bool) (myToken : ℕ)
    (lat lon : ℚ) (env : RunEnv) :
    (env.latest1 ≠ myToken →
      emittedFrom (runCheck distM extractName expertMode myToken lat lon env) 1 = []) ∧
    (env.latest2 ≠ myToken →
      emittedFrom (runCheck distM extractName expertMode myToken lat lon env) 2 = []) := by
  constructor
  · intro hst
    unfold emittedFrom runCheck
    cases hap : nearestAirport distM lat lon with
    | none => simp [runMain, hst]
    | some b =>
      by_cases hg : airportGate expertMode (some b) = true
      · simp [hg, airportEmissions]
      · simp [hg, runMain, hst]
  · intro hst2
    unfold emittedFrom runCheck
    cases hap : nearestAirport distM lat lon with
    | none =>
      by_cases h1 : env.latest1 = myToken
      · simp [runMain, h1, afterDirect_filter2 extractName expertMode none myToken env hst2]
      · simp [runMain, h1]
    | some b =>
      by_cases hg : airportGate expertMode (some b) = true
      · simp [hg, airportEmissions]
      · by_cases h1 : env.latest1 = myToken
        · simp [hg, runMain, h1,
            afterDirect_filter2 extractName expertMode (some b) myToken env hst2]
        · simp [hg, runMain, h1]

theorem runCheck_supersession_silent_witness :
    ((2 : ℕ) ≠ 1 ∧
      emittedFrom (runCheck (fun _ _ _ _ => 6000) (fun _ => none) false 1 64 (-20)
        ⟨2, 2, ⟨"none", false, none, none, none, none⟩, []⟩) 1 = []) ∧
    emittedFrom (runCheck (fun _ _ _ _ => 6000) (fun _ => none) false 1 64 (-20)
        ⟨2, 2, ⟨"none", false, none, none, none, none⟩, []⟩) 2 = [] :=
  ⟨⟨by decide,
    (runCheck_supersession_silent (fun _ _ _ _ => 6000) (fun _ => none) false 1 64 (-20)
      ⟨2, 2, ⟨"none", false, none, none, none, none⟩, []⟩).1 (by decide)⟩,
   (runCheck_supersession_silent (fun _ _ _ _ => 6000) (fun _ => none) false 1 64 (-20)
      ⟨2, 2, ⟨"none", false, none, none, none, none⟩, []⟩).2 (by decide)⟩

/-- C2: with expert mode off, whenever some entry of the static airport
list lies within 5000 m of the coordinate (so in particular the nearest
one does), the run emits — entirely in phase 0, before either awaited
network call — the RED advisory naming the nearest airport and its
rounded distance, plus the zone line and the overlay switch, and nothing
else: the emission list is independent of the environment `env` (the
zone services are never consulted, so the outcome is RED even if both
services are unreachable) and contains neither network-phase marker. -/
theorem runCheck_airport_policy_red (distM : ℚ → ℚ → ℚ → ℚ → ℚ)
    (extractName : String → Option String) (myToken : ℕ) (lat lon : ℚ)
    (env : RunEnv) (ap : Airport) (hmem : ap ∈ AIRPORTS)
    (hd : distM lat lon ap.lat ap.lon ≤ AIRPORT_POLICY_RADIUS_M) :
    ∃ b : NearestAirport,
      nearestAirport distM lat lon = some b ∧
      b.distanceM ≤ AIRPORT_POLICY_RADIUS_M ∧
      runCheck distM extractName false myToken lat lon env =
        [(0, Emission.zone "Zone: —"),
         (0, Emission.zone ("Zone: Flughafen-Nähe (" ++ b.airport.code ++ ")")),
         (0, Emission.state "no" "ROT"
            (airportRedDetail b.airport.name (jsRound b.distanceM))),
         (0, Emission.overlayAvi)] ∧
      strContains (airportRedDetail b.airport.name (jsRound b.distanceM))
        b.airport.name = true ∧
      strContains (airportRedDetail b.airport.name (jsRound b.distanceM))
        (toString (jsRound b.distanceM) ++ " m") = true ∧
      ∀ p ∈ runCheck distM extractName false myToken lat lon env,
        p.2 ≠ Emission.queryDirect ∧ p.2 ≠ Emission.queryNear := by
  obtain ⟨b, hb, hble⟩ := nearestAirport_min distM lat lon hmem
  have hble5 : b.distanceM ≤ AIRPORT_POLICY_RADIUS_M := hble.trans hd
  have hgate : airportGate false (some b) = true := by
    simp [airportGate, apWithinPolicy, hble5]
  have hrun : runCheck distM extractName false myToken lat lon env =
      (0, Emission.zone "Zone: —") :: airportEmissions b := by
    unfold runCheck
    rw [hb]
    simp [hgate]
  refine ⟨b, hb, hble5, ?_, ?_, ?_, ?_⟩
  · rw [hrun]
    rfl
  · unfold airportRedDetail
    exact strContains_self_append _ _
  · unfold airportRedDetail
    apply strContains_append_right
    apply strContains_append_right
    exact strContains_self_append _ _
  · rw [hrun]
    intro p hp
    simp only [airportEmissions, List.mem_cons, List.mem_singleton,
      List.not_mem_nil, or_false] at hp
    rcases hp with h | h | h | h <;> subst h <;> exact ⟨by simp, by simp⟩

theorem runCheck_airport_policy_red_witness :
    ((⟨"KEF", "Keflavík (KEF)", 63.9850, -22.6056⟩ : Airport) ∈ AIRPORTS ∧
     ((0 : ℚ) ≤ AIRPORT_POLICY_RADIUS_M)) ∧
    ∃ b : NearestAirport,
      nearestAirport (fun _ _ _ _ => 0) 64 (-20) = some b ∧
      b.distanceM ≤ AIRPORT_POLICY_RADIUS_M ∧
      runCheck (fun _ _ _ _ => 0) (fun _ => none) false 1 64 (-20)
          ⟨1, 1, ⟨"none", false, none, none, none, none⟩, []⟩ =
        [(0, Emission.zone "Zone: —"),
         (0, Emission.zone ("Zone: Flughafen-Nähe (" ++ b.airport.code ++ ")")),
         (0, Emission.state "no" "ROT"
            (airportRedDetail b.airport.name (jsRound b.distanceM))),
         (0, Emission.overlayAvi)] ∧
      strContains (airportRedDetail b.airport.name (jsRound b.distanceM))
        b.airport.name = true ∧
      strContains (airportRedDetail b.airport.name (jsRound b.distanceM))
        (toString (jsRound b.distanceM) ++ " m") = true ∧
      ∀ p ∈ runCheck (fun _ _ _ _ => 0) (fun _ => none) false 1 64 (-20)
          ⟨1, 1, ⟨"none", false, none, none, none, none⟩, []⟩,
        p.2 ≠ Emission.queryDirect ∧ p.2 ≠ Emission.queryNear :=
  ⟨⟨by unfold AIRPORTS; exact List.Mem.head _, by decide⟩,
   runCheck_airport_policy_red (fun _ _ _ _ => 0) (fun _ => none) 1 64 (-20)
     ⟨1, 1, ⟨"none", false, none, none, none, none⟩, []⟩
     ⟨"KEF", "Keflavík (KEF)", 63.9850, -22.6056⟩
     (by unfold AIRPORTS; exact List.Mem.head _) (by decide)⟩

/-- C3: once the direct combined check has resolved and the run is still
the latest, the decision priority is: aviation level "hit" emits the RED
advisory (zone line, banner, overlay) and terminates; otherwise a
protected-area hit emits the YELLOW advisory and terminates; otherwise
aviation level "context" emits the INFO advisory and terminates; only in
the remaining case is the perimeter scan awaited.  In each of the three
terminal cases the perimeter-scan marker never appears anywhere in the
run's emissions. -/
theorem runCheck_direct_priority (distM : ℚ → ℚ → ℚ → ℚ → ℚ)
    (extractName : String → Option String) (expertMode : Bool) (myToken : ℕ)
    (lat lon : ℚ) (env : RunEnv)
    (hgate : airportGate expertMode (nearestAirport distM lat lon) = false)
    (h1 : env.latest1 = myToken) :
    (env.base.aviationLevel = "hit" →
      phaseList (runCheck distM extractName expertMode myToken lat lon env) 1 =
        [Emission.zone ("Zone: " ++ (aviXmlName extractName env.base.aviOk).getD "Aviation-Zone"),
         Emission.state "no" "ROT"
           (withHint ("Treffer: Aviation/Luftraum (regelrelevant). Vertrauen: " ++
              confidenceLabel env.base.aviErr env.base.protErr ++ ".")
             (summarizeErrors env.base.aviErr env.base.protErr)),
         Emission.overlayAvi] ∧
      ∀ p ∈ runCheck distM extractName expertMode myToken lat lon env,
        p.2 ≠ Emission.queryNear) ∧
    (env.base.aviationLevel ≠ "hit" → env.base.protectedHit = true →
      phaseList (runCheck distM extractName expertMode myToken lat lon env) 1 =
        [Emission.zone ("Zone: " ++ (protXmlName extractName env.base.protOk).getD "Schutzgebiet"),
         Emission.state "warn" "GELB"
           (withHint ("Schutzgebiet: sensibler Bereich. Vertrauen: " ++
              confidenceLabel env.base.aviErr env.base.protErr ++
              ". Regeln können variieren – bitte amtlich prüfen.")
             (summarizeErrors env.base.aviErr env.base.protErr))] ∧
      ∀ p ∈ runCheck distM extractName expertMode myToken lat lon env,
        p.2 ≠ Emission.queryNear) ∧
    (env.base.aviationLevel ≠ "hit" → env.base.protectedHit = false →
     env.base.aviationLevel = "context" →
      phaseList (runCheck distM extractName expertMode myToken lat lon env) 1 =
        [Emission.zone "Zone: Aviation-Kontext",
         Emission.state "info" "INFO"
           (withHint ("Aviation-Umfeld (Hinweis). Kein explizites Verbot als Feature. Vertrauen: " ++
              confidenceLabel env.base.aviErr env.base.protErr ++
              ". Bitte besonders aufmerksam (lokale Regeln, Start-/Landeachsen, NOTAM, Menschen).")
             (summarizeErrors env.base.aviErr env.base.protErr))] ∧
      ∀ p ∈ runCheck distM extractName expertMode myToken lat lon env,
        p.2 ≠ Emission.queryNear) ∧
    (env.base.aviationLevel ≠ "hit" → env.base.protectedHit = false →
     env.base.aviationLevel ≠ "context" →
      (1, Emission.queryNear) ∈ runCheck distM extractName expertMode myToken lat lon env) := by
  have hform : runCheck distM extractName expertMode myToken lat lon env =
      (0, Emission.zone "Zone: —") ::
      (0, Emission.state "warn" "…" "Frage Server (Aviation + Schutzgebiete)…") ::
      (0, Emission.queryDirect) ::
      afterDirect extractName expertMode (nearestAirport distM lat lon) myToken env := by
    rw [runCheck_not_gated distM extractName expertMode myToken lat lon env hgate]
    unfold runMain
    rw [if_pos h1]
  refine ⟨?_, ?_, ?_, ?_⟩
  · intro hhit
    constructor
    · rw [hform]
      simp [phaseList, afterDirect, hhit]
    · rw [hform]
      intro p hp
      simp only [afterDirect] at hp
      rw [if_pos hhit] at hp
      fin_cases hp <;> simp
  · intro hhit hprot
    constructor
    · rw [hform]
      simp [phaseList, afterDirect, hhit, hprot]
    · rw [hform]
      intro p hp
      simp only [afterDirect] at hp
      rw [if_neg hhit, if_pos hprot] at hp
      fin_cases hp <;> simp
  · intro hhit hprot hctx
    constructor
    · rw [hform]
      simp [phaseList, afterDirect, hhit, hprot, hctx]
    · rw [hform]
      intro p hp
      simp only [afterDirect] at hp
      rw [if_neg hhit, if_neg (by simp [hprot] : ¬env.base.protectedHit = true),
        if_pos hctx] at hp
      fin_cases hp <;> simp
  · intro hhit hprot hctx
    rw [hform]
    simp [afterDirect, hhit, hprot, hctx]

theorem runCheck_direct_priority_witness :
    (airportGate false (nearestAirport (fun _ _ _ _ => 6000) 64 (-20)) = false ∧
     ((1 : ℕ) = 1) ∧
     ((⟨"hit", false, none, none, none, none⟩ : CombinedCheck).aviationLevel = "hit")) ∧
    phaseList (runCheck (fun _ _ _ _ => 6000) (fun _ => none) false 1 64 (-20)
        ⟨1, 1, ⟨"hit", false, none, none, none, none⟩, []⟩) 1 =
      [Emission.zone ("Zone: " ++
          (aviXmlName (fun _ => none)
            (⟨1, 1, (⟨"hit", false, none, none, none, none⟩ : CombinedCheck), []⟩ :
              RunEnv).base.aviOk).getD "Aviation-Zone"),
       Emission.state "no" "ROT"
         (withHint ("Treffer: Aviation/Luftraum (regelrelevant). Vertrauen: " ++
            confidenceLabel none none ++ ".") (summarizeErrors none none)),
       Emission.overlayAvi] :=
  ⟨⟨by decide, rfl, rfl⟩,
   ((runCheck_direct_priority (fun _ _ _ _ => 6000) (fun _ => none) false 1 64 (-20)
      ⟨1, 1, ⟨"hit", false, none, none, none, none⟩, []⟩ (by decide) rfl).1 rfl).1⟩

theorem runCheck_perimeter_eq (distM : ℚ → ℚ → ℚ → ℚ → ℚ)
    (extractName : String → Option String) (expertMode : Bool) (myToken : ℕ)
    (lat lon : ℚ) (env : RunEnv)
    (hgate : airportGate expertMode (nearestAirport distM lat lon) = false)
    (h1 : env.latest1 = myToken) (h2 : env.latest2 = myToken)
    (hlvl : env.base.aviationLevel ≠ "hit") (hprot : env.base.protectedHit = false)
    (hctx : env.base.aviationLevel ≠ "context") :
    phaseList (runCheck distM extractName expertMode myToken lat lon env) 2 =
      perimeterPhase expertMode (nearestAirport distM lat lon)
        (confidenceLabel env.base.aviErr env.base.protErr)
        (summarizeErrors env.base.aviErr env.base.protErr)
        (nearCheck env.nearResults) := by
  rw [runCheck_not_gated distM extractName expertMode myToken lat lon env hgate]
  unfold runMain
  rw [if_pos h1]
  simp only [afterDirect]
  rw [if_neg hlvl, if_neg (by simp [hprot] : ¬env.base.protectedHit = true), if_neg hctx,
    if_pos h2]
  simp [phaseList, List.filter_append, phaseTag_proj]

theorem perimeterPhase_no_red (expertMode : Bool) (ap : Option NearestAirport)
    (conf errSum : String) (near : NearSummary) :
    ∀ c d, Emission.state c "ROT" d ∉ perimeterPhase expertMode ap conf errSum near := by
  intro c d
  unfold perimeterPhase
  by_cases hr : perimeterReasons errSum near ≠ []
  · rw [if_pos hr]
    simp
  · rw [if_neg hr]
    by_cases hc : conf = "niedrig"
    · rw [if_pos hc]
      simp
    · rw [if_neg hc]
      cases ap with
      | none => simp [greenEmission]
      | some b =>
        dsimp only
        by_cases hx : (expertMode && decide (b.distanceM ≤ AIRPORT_POLICY_RADIUS_M)) = true
        · rw [if_pos hx]
          simp
        · rw [if_neg hx]
          simp [greenEmission]

/-- C5 (counterexample): a run whose direct center check is clean and
error-free, but where one of the 8 ring-point checks carries a service
error (`hadErrors = true`) and no ring point reports any hit, emits
GREEN — not the YELLOW that the claim derives from "errors occurred
upstream … including ring-point check failures aggregated into
hadErrors". -/
theorem runCheck_ring_error_green_cex :
    (nearCheck [⟨"none", false, none, none, some "HTTP 500", none⟩,
      ⟨"none", false, none, none, none, none⟩, ⟨"none", false, none, none, none, none⟩,
      ⟨"none", false, none, none, none, none⟩, ⟨"none", false, none, none, none, none⟩,
      ⟨"none", false, none, none, none, none⟩, ⟨"none", false, none, none, none, none⟩,
      ⟨"none", false, none, none, none, none⟩]).hadErrors = true ∧
    phaseList (runCheck (fun _ _ _ _ => 6000) (fun _ => none) false 1 64 (-20)
      ⟨1, 1, ⟨"none", false, none, none, none, none⟩,
        [⟨"none", false, none, none, some "HTTP 500", none⟩,
         ⟨"none", false, none, none, none, none⟩, ⟨"none", false, none, none, none, none⟩,
         ⟨"none", false, none, none, none, none⟩, ⟨"none", false, none, none, none, none⟩,
         ⟨"none", false, none, none, none, none⟩, ⟨"none", false, none, none, none, none⟩,
         ⟨"none", false, none, none, none, none⟩]⟩) 2 =
      [Emission.state "ok" "GRÜN"
        "Keine Zone laut Servern. Vertrauen: hoch. (Aviation + Schutzgebiete)"] := by
  decide

/-- C5 (amended): when the perimeter scan runs (direct check fell
through, run still latest), the emitted advisory is YELLOW exactly when
some ring point reports an aviation hit, or some ring point reports a
protected-area hit, or the DIRECT center check recorded a per-service
error; a single ring-point aviation hit with a clear, error-free center
yields YELLOW with the boundary-proximity reason; in every other case
the phase emits INFO or GREEN; and the perimeter phase never emits RED.
Ring-point failures alone (`hadErrors`) do not trigger YELLOW — they
only append an incompleteness note to an already-YELLOW advisory. -/
theorem runCheck_perimeter_yellow_rules (distM : ℚ → ℚ → ℚ → ℚ → ℚ)
    (extractName : String → Option String) (expertMode : Bool) (myToken : ℕ)
    (lat lon : ℚ) (env : RunEnv)
    (hgate : airportGate expertMode (nearestAirport distM lat lon) = false)
    (h1 : env.latest1 = myToken) (h2 : env.latest2 = myToken)
    (hlvl : env.base.aviationLevel ≠ "hit") (hprot : env.base.protectedHit = false)
    (hctx : env.base.aviationLevel ≠ "context")
    (hlen : env.nearResults.length = RADAR_POINTS) :
    ((nearCheck env.nearResults).nearAviationHit = true ∨
     (nearCheck env.nearResults).nearProtected = true ∨
     env.base.aviErr ≠ none ∨ env.base.protErr ≠ none →
      ∃ d, phaseList (runCheck distM extractName expertMode myToken lat lon env) 2 =
        [Emission.state "warn" "GELB" d]) ∧
    ((nearCheck env.nearResults).nearAviationHit = true →
     (nearCheck env.nearResults).nearProtected = false →
     env.base.aviErr = none → env.base.protErr = none →
      ∃ d, phaseList (runCheck distM extractName expertMode myToken lat lon env) 2 =
          [Emission.state "warn" "GELB" d] ∧
        strContains d "Grenzbereich Aviation" = true) ∧
    ((nearCheck env.nearResults).nearAviationHit = false →
     (nearCheck env.nearResults).nearProtected = false →
     env.base.aviErr = none → env.base.protErr = none →
      ∃ d, phaseList (runCheck distM extractName expertMode myToken lat lon env) 2 =
          [Emission.state "info" "INFO" d] ∨
        phaseList (runCheck distM extractName expertMode myToken lat lon env) 2 =
          [Emission.state "ok" "GRÜN" d]) ∧
    (∀ c d, Emission.state c "ROT" d ∉
      phaseList (runCheck distM extractName expertMode myToken lat lon env) 2) := by
  have hperim := runCheck_perimeter_eq distM extractName expertMode myToken lat lon env
    hgate h1 h2 hlvl hprot hctx
  refine ⟨?_, ?_, ?_, ?_⟩
  · intro hcond
    rw [hperim]
    unfold perimeterPhase
    have hne : perimeterReasons (summarizeErrors env.base.aviErr env.base.protErr)
        (nearCheck env.nearResults) ≠ [] := by
      unfold perimeterReasons
      rcases hcond with h | h | h | h
      · simp [h]
      · cases hA : (nearCheck env.nearResults).nearAviationHit <;> simp [h, hA]
      · have herr : summarizeErrors env.base.aviErr env.base.protErr ≠ "" := by
          rw [Ne, summarizeErrors_eq_empty]
          tauto
        cases hA : (nearCheck env.nearResults).nearAviationHit <;>
          cases hP : (nearCheck env.nearResults).nearProtected <;>
            simp [hA, hP, herr]
      · have herr : summarizeErrors env.base.aviErr env.base.protErr ≠ "" := by
          rw [Ne, summarizeErrors_eq_empty]
          tauto
        cases hA : (nearCheck env.nearResults).nearAviationHit <;>
          cases hP : (nearCheck env.nearResults).nearProtected <;>
            simp [hA, hP, herr]
    rw [if_pos hne]
    exact ⟨_, rfl⟩
  · intro hA hP ha hp
    rw [hperim]
    have herr : summarizeErrors env.base.aviErr env.base.protErr = "" :=
      (summarizeErrors_eq_empty _ _).mpr ⟨ha, hp⟩
    have hrs : perimeterReasons (summarizeErrors env.base.aviErr env.base.protErr)
        (nearCheck env.nearResults) =
        ["Grenzbereich Aviation (<" ++ toString NEAR_DISTANCE_M ++ " m)"] := by
      unfold perimeterReasons
      simp [hA, hP, herr]
    unfold perimeterPhase
    rw [hrs]
    rw [if_pos (by simp : (["Grenzbereich Aviation (<" ++ toString NEAR_DISTANCE_M ++
      " m)"] : List String) ≠ [])]
    refine ⟨_, rfl, ?_⟩
    apply strContains_append_left
    apply strContains_append_left
    apply strContains_append_left
    apply strContains_append_left
    apply strContains_append_right
    have hj : arrJoin " | "
        ["Grenzbereich Aviation (<" ++ toString NEAR_DISTANCE_M ++ " m)"] =
        "Grenzbereich Aviation (<" ++ toString NEAR_DISTANCE_M ++ " m)" := rfl
    rw [hj]
    apply strContains_append_left
    apply strContains_append_left
    have hsplit : ("Grenzbereich Aviation (<" : String) =
        "Grenzbereich Aviation" ++ " (<" := rfl
    rw [hsplit]
    exact strContains_self_append _ _
  · intro hA hP ha hp
    rw [hperim]
    have herr : summarizeErrors env.base.aviErr env.base.protErr = "" :=
      (summarizeErrors_eq_empty _ _).mpr ⟨ha, hp⟩
    have hconf : confidenceLabel env.base.aviErr env.base.protErr = "hoch" := by
      simp [confidenceLabel, ha, hp]
    have hrs : perimeterReasons (summarizeErrors env.base.aviErr env.base.protErr)
        (nearCheck env.nearResults) = [] := by
      unfold perimeterReasons
      simp [hA, hP, herr]
    unfold perimeterPhase
    rw [hrs, hconf]
    rw [if_neg (by simp : ¬(([] : List String) ≠ []))]
    rw [if_neg (by decide : ¬(("hoch" : String) = "niedrig"))]
    cases nearestAirport distM lat lon with
    | none =>
      exact ⟨"Keine Zone laut Servern. Vertrauen: " ++ "hoch" ++
        ". (Aviation + Schutzgebiete)", Or.inr rfl⟩
    | some b =>
      dsimp only
      by_cases hx : (expertMode && decide (b.distanceM ≤ AIRPORT_POLICY_RADIUS_M)) = true
      · rw [if_pos hx]
        exact ⟨_, Or.inl rfl⟩
      · rw [if_neg hx]
        exact ⟨"Keine Zone laut Servern. Vertrauen: " ++ "hoch" ++
          ". (Aviation + Schutzgebiete)", Or.inr rfl⟩
  · intro c d
    rw [hperim]
    exact perimeterPhase_no_red _ _ _ _ _ c d

theorem runCheck_perimeter_yellow_rules_witness :
    ((nearCheck [⟨"hit", false, none, none, none, none⟩,
        ⟨"none", false, none, none, none, none⟩, ⟨"none", false, none, none, none, none⟩,
        ⟨"none", false, none, none, none, none⟩, ⟨"none", false, none, none, none, none⟩,
        ⟨"none", false, none, none, none, none⟩, ⟨"none", false, none, none, none, none⟩,
        ⟨"none", false, none, none, none, none⟩]).nearAviationHit = true ∧
     airportGate false (nearestAirport (fun _ _ _ _ => 6000) 64 (-20)) = false) ∧
    ∃ d, phaseList (runCheck (fun _ _ _ _ => 6000) (fun _ => none) false 1 64 (-20)
        ⟨1, 1, ⟨"none", false, none, none, none, none⟩,
          [⟨"hit", false, none, none, none, none⟩,
           ⟨"none", false, none, none, none, none⟩, ⟨"none", false, none, none, none, none⟩,
           ⟨"none", false, none, none, none, none⟩, ⟨"none", false, none, none, none, none⟩,
           ⟨"none", false, none, none, none, none⟩, ⟨"none", false, none, none, none, none⟩,
           ⟨"none", false, none, none, none, none⟩]⟩) 2 =
        [Emission.state "warn" "GELB" d] ∧
      strContains d "Grenzbereich Aviation" = true :=
  ⟨⟨by decide, by decide⟩,
   (runCheck_perimeter_yellow_rules (fun _ _ _ _ => 6000) (fun _ => none) false 1 64 (-20)
      ⟨1, 1, ⟨"none", false, none, none, none, none⟩,
        [⟨"hit", false, none, none, none, none⟩,
         ⟨"none", false, none, none, none, none⟩, ⟨"none", false, none, none, none, none⟩,
         ⟨"none", false, none, none, none, none⟩, ⟨"none", false, none, none, none, none⟩,
         ⟨"none", false, none, none, none, none⟩, ⟨"none", false, none, none, none, none⟩,
         ⟨"none", false, none, none, none, none⟩]⟩
      (by decide) rfl rfl (by decide) rfl (by decide) (by decide)).2.1
     (by decide) (by decide) rfl rfl⟩

/-- C7 (counterexample): a run in which the aviation service errored at
a ring point during the perimeter scan (so an upstream service DID error
somewhere in the run, `hadErrors = true`) still emits its advisory with
confidence "hoch" (high); the claim's "medium if exactly one [service
errored anywhere in the run]" predicts `confidenceLabel` of that error,
"mittel", instead. -/
theorem runCheck_ring_error_conf_cex :
    (nearCheck [⟨"none", true, none, none, some "HTTP 500", none⟩,
      ⟨"none", false, none, none, none, none⟩, ⟨"none", false, none, none, none, none⟩,
      ⟨"none", false, none, none, none, none⟩, ⟨"none", false, none, none, none, none⟩,
      ⟨"none", false, none, none, none, none⟩, ⟨"none", false, none, none, none, none⟩,
      ⟨"none", false, none, none, none, none⟩]).hadErrors = true ∧
    confidenceLabel (some "HTTP 500") none = "mittel" ∧
    phaseList (runCheck (fun _ _ _ _ => 6000) (fun _ => none) false 1 64 (-20)
      ⟨1, 1, ⟨"none", false, none, none, none, none⟩,
        [⟨"none", true, none, none, some "HTTP 500", none⟩,
         ⟨"none", false, none, none, none, none⟩, ⟨"none", false, none, none, none, none⟩,
         ⟨"none", false, none, none, none, none⟩, ⟨"none", false, none, none, none, none⟩,
         ⟨"none", false, none, none, none, none⟩, ⟨"none", false, none, none, none, none⟩,
         ⟨"none", false, none, none, none, none⟩]⟩) 2 =
      [Emission.state "warn" "GELB"
        "Vorsicht: nahe Schutzgebiet (<500 m). Vertrauen: hoch. | Hinweis: Grenz-Check evtl. unvollständig."] := by
  decide

/-- C7 (amended): the confidence label is `confidenceLabel` of the
DIRECT center check's two per-service errors only — "hoch" when neither
center query errored, "niedrig" when both did, "mittel" when exactly one
did; errors arising during the perimeter scan's ring-point checks do not
enter it: a run with a clean center and arbitrary ring-point errors
still emits GREEN with "Vertrauen: hoch". -/
theorem confidenceLabel_center_only (distM : ℚ → ℚ → ℚ → ℚ → ℚ)
    (extractName : String → Option String) (myToken : ℕ) (lat lon : ℚ) (env : RunEnv)
    (hgate : airportGate false (nearestAirport distM lat lon) = false)
    (h1 : env.latest1 = myToken) (h2 : env.latest2 = myToken)
    (hlvl : env.base.aviationLevel ≠ "hit") (hprot : env.base.protectedHit = false)
    (hctx : env.base.aviationLevel ≠ "context")
    (ha : env.base.aviErr = none) (hp : env.base.protErr = none)
    (hA : (nearCheck env.nearResults).nearAviationHit = false)
    (hP : (nearCheck env.nearResults).nearProtected = false) :
    (∀ a p : Option String,
      (a = none ∧ p = none → confidenceLabel a p = "hoch") ∧
      (a ≠ none ∧ p ≠ none → confidenceLabel a p = "niedrig") ∧
      (a = none ∧ p ≠ none → confidenceLabel a p = "mittel") ∧
      (a ≠ none ∧ p = none → confidenceLabel a p = "mittel")) ∧
    phaseList (runCheck distM extractName false myToken lat lon env) 2 =
      [Emission.state "ok" "GRÜN"
        "Keine Zone laut Servern. Vertrauen: hoch. (Aviation + Schutzgebiete)"] := by
  constructor
  · intro a p
    cases a <;> cases p <;> simp [confidenceLabel]
  · rw [runCheck_perimeter_eq distM extractName false myToken lat lon env
      hgate h1 h2 hlvl hprot hctx]
    have herr : summarizeErrors env.base.aviErr env.base.protErr = "" :=
      (summarizeErrors_eq_empty _ _).mpr ⟨ha, hp⟩
    have hconf : confidenceLabel env.base.aviErr env.base.protErr = "hoch" := by
      simp [confidenceLabel, ha, hp]
    have hrs : perimeterReasons (summarizeErrors env.base.aviErr env.base.protErr)
        (nearCheck env.nearResults) = [] := by
      unfold perimeterReasons
      simp [hA, hP, herr]
    unfold perimeterPhase
    rw [hrs, hconf]
    rw [if_neg (by simp : ¬(([] : List String) ≠ []))]
    rw [if_neg (by decide : ¬(("hoch" : String) = "niedrig"))]
    cases nearestAirport distM lat lon with
    | none => rfl
    | some b =>
      dsimp only
      rw [if_neg (by simp : ¬((false && decide (b.distanceM ≤ AIRPORT_POLICY_RADIUS_M)) = true))]
      rfl

theorem confidenceLabel_center_only_witness :
    ((nearCheck [⟨"none", false, none, none, none, some "HTTP 500"⟩,
        ⟨"none", false, none, none, none, none⟩, ⟨"none", false, none, none, none, none⟩,
        ⟨"none", false, none, none, none, none⟩, ⟨"none", false, none, none, none, none⟩,
        ⟨"none", false, none, none, none, none⟩, ⟨"none", false, none, none, none, none⟩,
        ⟨"none", false, none, none, none, none⟩]).hadErrors = true ∧
     (nearCheck [⟨"none", false, none, none, none, some "HTTP 500"⟩,
        ⟨"none", false, none, none, none, none⟩, ⟨"none", false, none, none, none, none⟩,
        ⟨"none", false, none, none, none, none⟩, ⟨"none", false, none, none, none, none⟩,
        ⟨"none", false, none, none, none, none⟩, ⟨"none", false, none, none, none, none⟩,
        ⟨"none", false, none, none, none, none⟩]).nearAviationHit = false) ∧
    phaseList (runCheck (fun _ _ _ _ => 6000) (fun _ => none) false 1 64 (-20)
      ⟨1, 1, ⟨"none", false, none, none, none, none⟩,
        [⟨"none", false, none, none, none, some "HTTP 500"⟩,
         ⟨"none", false, none, none, none, none⟩, ⟨"none", false, none, none, none, none⟩,
         ⟨"none", false, none, none, none, none⟩, ⟨"none", false, none, none, none, none⟩,
         ⟨"none", false, none, none, none, none⟩, ⟨"none", false, none, none, none, none⟩,
         ⟨"none", false, none, none, none, none⟩]⟩) 2 =
      [Emission.state "ok" "GRÜN"
        "Keine Zone laut Servern. Vertrauen: hoch. (Aviation + Schutzgebiete)"] :=
  ⟨⟨by decide, by decide⟩,
   (confidenceLabel_center_only (fun _ _ _ _ => 6000) (fun _ => none) 1 64 (-20)
      ⟨1, 1, ⟨"none", false, none, none, none, none⟩,
        [⟨"none", false, none, none, none, some "HTTP 500"⟩,
         ⟨"none", false, none, none, none, none⟩, ⟨"none", false, none, none, none, none⟩,
         ⟨"none", false, none, none, none, none⟩, ⟨"none", false, none, none, none, none⟩,
         ⟨"none", false, none, none, none, none⟩, ⟨"none", false, none, none, none, none⟩,
         ⟨"none", false, none, none, none, none⟩]⟩
      (by decide) rfl rfl (by decide) rfl (by decide) rfl rfl
      (by decide) (by decide)).2⟩
